import Mathlib

/-!
Shallow embedding of the `@salte-auth/salte-auth` authentication controller
(`src/salte-auth.js`): the event bus (`on` / `off` / `$fire`), the in-flight
operation registry (`$promises`), the renewal scheduler (`$$refreshToken` and
its timer callbacks), the flow entry points (`loginWith*`, `logoutWith*`,
`refreshToken`, `retrieveAccessToken`) and the constructor's singleton logic.

JavaScript promises are modelled as numeric handles allocated from a counter;
a promise settles only through an explicit settlement transition, and the
handle created by `loginWithRedirect` (`new Promise(() => {})`, whose resolver
never escapes) is recorded as never-settling, as is any handle chained onto a
never-settling one.  Listeners are modelled as numeric identities together
with a behaviour function saying whether a given listener throws.  Machine
time is `Int` milliseconds.
-/

namespace SalteAuthModel

/-- Valid event kinds accepted by `on` / `off` (salte-auth.js line 336/359). -/
def eventKinds : List String := ["login", "logout", "refresh", "expired"]

/-- JavaScript callback value: an identity plus whether `typeof cb === 'function'`. -/
structure JsCallback where
  id : Nat
  callable : Bool
deriving DecidableEq

/-- Listener registry: `this.$listeners`, one ordered list per event kind. -/
structure ListenerRegistry where
  login : List Nat
  logout : List Nat
  refresh : List Nat
  expired : List Nat
deriving DecidableEq

/-- Lookup of `this.$listeners[eventType]` (an absent key reads as the empty list). -/
def ListenerRegistry.get (r : ListenerRegistry) (k : String) : List Nat :=
  if k = "login" then r.login
  else if k = "logout" then r.logout
  else if k = "refresh" then r.refresh
  else if k = "expired" then r.expired
  else []

/-- Assignment `this.$listeners[eventType] := l`. -/
def ListenerRegistry.set (r : ListenerRegistry) (k : String) (l : List Nat) : ListenerRegistry :=
  if k = "login" then { r with login := l }
  else if k = "logout" then { r with logout := l }
  else if k = "refresh" then { r with refresh := l }
  else if k = "expired" then { r with expired := l }
  else r

/-- JavaScript `Array.prototype.indexOf`, returning `-1` when absent. -/
def jsIndexOfAux (x : Nat) : List Nat → Nat → Int
  | [], _ => -1
  | y :: rest, i => if y = x then (i : Int) else jsIndexOfAux x rest (i + 1)

/-- JavaScript `l.indexOf(x)`. -/
def jsIndexOf (l : List Nat) (x : Nat) : Int := jsIndexOfAux x l 0

/-- JavaScript `l.splice(start, 1)` (result of the mutation): a negative `start`
is taken from the end, clamped at `0`; a `start` past the end removes nothing. -/
def jsSplice1 (l : List Nat) (start : Int) : List Nat :=
  let len : Int := (l.length : Int)
  let actual : Int := if start < 0 then max (len + start) 0 else min start len
  l.eraseIdx actual.toNat

/-- The `on(eventType, callback)` method (salte-auth.js lines 335-344): throws
`ReferenceError` for an unknown kind or a non-callable callback, otherwise
appends the callback to the kind's list.  `Except.error` models the throw. -/
def jsOn (r : ListenerRegistry) (eventType : String) (cb : JsCallback) :
    Except String ListenerRegistry :=
  if eventType ∉ eventKinds then
    Except.error ("Unknown Event Type (" ++ eventType ++ ")")
  else if cb.callable = false then
    Except.error "Invalid callback provided!"
  else
    Except.ok (r.set eventType (r.get eventType ++ [cb.id]))

/-- The `off(eventType, callback)` method (salte-auth.js lines 358-370):
after the same two guards, an empty (or absent) list returns unchanged;
otherwise `splice(indexOf(callback), 1)` is applied. -/
def jsOff (r : ListenerRegistry) (eventType : String) (cb : JsCallback) :
    Except String ListenerRegistry :=
  if eventType ∉ eventKinds then
    Except.error ("Unknown Event Type (" ++ eventType ++ ")")
  else if cb.callable = false then
    Except.error "Invalid callback provided!"
  else
    let ls := r.get eventType
    if ls.isEmpty then Except.ok r
    else Except.ok (r.set eventType (jsSplice1 ls (jsIndexOf ls cb.id)))

/-- Calls made by `eventListeners.forEach((listener) => listener(error, data))`
(salte-auth.js line 389) when `beh l = true` means listener `l` throws: each
listener is invoked with the `(error, data)` pair, and a throw aborts the
iteration (the exception propagates out of `forEach`). -/
def fireCalls (beh : Nat → Bool) (e d : Option String) :
    List Nat → List (Nat × Option String × Option String)
  | [] => []
  | l :: rest =>
      (l, e, d) :: (if beh l then [] else fireCalls beh e d rest)

/-- First throwing listener reached by the `forEach`, if any: its exception
propagates out of `$fire`. -/
def fireThrown (beh : Nat → Bool) : List Nat → Option Nat
  | [] => none
  | l :: rest => if beh l then some l else fireThrown beh rest

/-- Observable outcome of `$fire(eventType, error, data)` (salte-auth.js lines
379-390): the platform-wide `dispatchEvent` payload (always sent, before the
listener loop), the listener invocations, and the propagated exception. -/
structure FireOutcome where
  broadcast : Option String × Option String
  calls : List (Nat × Option String × Option String)
  thrown : Option Nat
deriving DecidableEq

/-- The `$fire` method over a single kind's listener list. -/
def fire (beh : Nat → Bool) (ls : List Nat) (e d : Option String) : FireOutcome :=
  ⟨(e, d), fireCalls beh e d ls, fireThrown beh ls⟩

/-- Modelled from the spec: the Session Profile (`salte-auth.profile.js` is not
among the sources).  It holds the opaque credentials and correlation values;
`idTokenExpired` / `accessTokenExpired` are its expiry predicates, read here as
the value they have at the moment of the call. -/
structure Profile where
  idToken : Option String
  accessToken : Option String
  code : Option String
  localState : Option String
  nonce : Option String
  idTokenExpired : Bool
  accessTokenExpired : Bool
deriving DecidableEq

/-- Modelled from the spec: `profile.$clear()` empties the stored credentials
and correlation values ("cleared entirely on logout, on login-configuration
request for full clear"); with no token stored, the expiry predicates hold. -/
def Profile.clear (_p : Profile) : Profile :=
  ⟨none, none, none, none, none, true, true⟩

/-- The `loginType` configuration value: `'iframe'`, `'redirect'`, `false`, or
anything else (rejected by `retrieveAccessToken`). -/
inductive LoginType
  | iframe
  | redirect
  | disabled
  | other (s : String)
deriving DecidableEq

/-- Configuration fields the modelled operations read (`this.$config`). -/
structure Config where
  loginType : LoginType
  autoRefresh : Bool
  autoRefreshBuffer : Int
  responseType : String
deriving DecidableEq

/-- Transport primitives opened by the flow executors. -/
inductive Transport
  | iframe
  | popup
  | newTab
  | navigate
deriving DecidableEq

/-- Mutable controller state: the per-category pending promise handles
(`this.$promises.login/logout/refresh/token`), the two renewal timers
(`this.$timeouts.refresh/expired`, storing the armed delay in ms), the
profile, a fresh-handle counter, and the set of handles that can never settle
(the `new Promise(() => {})` of `loginWithRedirect` and anything chained on
such a handle). -/
structure AuthState where
  promiseLogin : Option Nat
  promiseLogout : Option Nat
  promiseRefresh : Option Nat
  promiseToken : Option Nat
  timeoutRefresh : Option Int
  timeoutExpired : Option Int
  profile : Profile
  nextHandle : Nat
  neverSettling : List Nat
deriving DecidableEq

/-- Result of the synchronous body of a flow entry point: the updated state,
the returned promise handle (`none` for `logoutWithRedirect`, which returns
nothing), and the transports opened synchronously by the call. -/
structure CallResult where
  state : AuthState
  ret : Option Nat
  transports : List Transport
deriving DecidableEq

/-- The `loginWithIframe(config)` entry point (salte-auth.js lines 404-453):
a pending login promise is returned as-is; otherwise the profile is cleared
(fully by default, errors-only when called with `true` for refresh), an
iframe is opened and a fresh pending handle is stored and returned. -/
def loginWithIframe (refresh : Bool) (s : AuthState) : CallResult :=
  match s.promiseLogin with
  | some h => ⟨s, some h, []⟩
  | none =>
      let h := s.nextHandle
      let p := if refresh then s.profile else s.profile.clear
      ⟨{ s with promiseLogin := some h, nextHandle := h + 1, profile := p },
        some h, [Transport.iframe]⟩

/-- The `loginWithPopup()` entry point (salte-auth.js lines 466-492). -/
def loginWithPopup (s : AuthState) : CallResult :=
  match s.promiseLogin with
  | some h => ⟨s, some h, []⟩
  | none =>
      let h := s.nextHandle
      ⟨{ s with promiseLogin := some h, nextHandle := h + 1, profile := s.profile.clear },
        some h, [Transport.popup]⟩

/-- The `loginWithNewTab()` entry point (salte-auth.js lines 505-531). -/
def loginWithNewTab (s : AuthState) : CallResult :=
  match s.promiseLogin with
  | some h => ⟨s, some h, []⟩
  | none =>
      let h := s.nextHandle
      ⟨{ s with promiseLogin := some h, nextHandle := h + 1, profile := s.profile.clear },
        some h, [Transport.newTab]⟩

/-- The `loginWithRedirect(redirectUrl)` entry point (salte-auth.js lines
541-563): a pending login promise is returned as-is; otherwise
`this.$promises.login = new Promise(() => {})` — a handle that can never
settle — the profile is cleared and a full-page navigation starts. -/
def loginWithRedirect (s : AuthState) : CallResult :=
  match s.promiseLogin with
  | some h => ⟨s, some h, []⟩
  | none =>
      let h := s.nextHandle
      ⟨{ s with
          promiseLogin := some h, nextHandle := h + 1,
          profile := s.profile.clear, neverSettling := h :: s.neverSettling },
        some h, [Transport.navigate]⟩

/-- The `logoutWithIframe()` entry point (salte-auth.js lines 576-593). -/
def logoutWithIframe (s : AuthState) : CallResult :=
  match s.promiseLogout with
  | some h => ⟨s, some h, []⟩
  | none =>
      let h := s.nextHandle
      ⟨{ s with promiseLogout := some h, nextHandle := h + 1, profile := s.profile.clear },
        some h, [Transport.iframe]⟩

/-- The `logoutWithPopup()` entry point (salte-auth.js lines 606-624). -/
def logoutWithPopup (s : AuthState) : CallResult :=
  match s.promiseLogout with
  | some h => ⟨s, some h, []⟩
  | none =>
      let h := s.nextHandle
      ⟨{ s with promiseLogout := some h, nextHandle := h + 1, profile := s.profile.clear },
        some h, [Transport.popup]⟩

/-- The `logoutWithNewTab()` entry point (salte-auth.js lines 637-655). -/
def logoutWithNewTab (s : AuthState) : CallResult :=
  match s.promiseLogout with
  | some h => ⟨s, some h, []⟩
  | none =>
      let h := s.nextHandle
      ⟨{ s with promiseLogout := some h, nextHandle := h + 1, profile := s.profile.clear },
        some h, [Transport.newTab]⟩

/-- The `logoutWithRedirect()` entry point (salte-auth.js lines 663-669): it
consults no pending promise, stores none, returns nothing, clears the profile
and navigates unconditionally. -/
def logoutWithRedirect (s : AuthState) : CallResult :=
  ⟨{ s with profile := s.profile.clear }, none, [Transport.navigate]⟩

/-- The `refreshToken()` entry point (salte-auth.js lines 675-697): a pending
refresh promise is returned as-is; otherwise the chain
`loginWithIframe(true).then(...).catch(...)` is built — a fresh handle chained
on the login handle (and hence never-settling if that one is). -/
def refreshTokenOp (s : AuthState) : CallResult :=
  match s.promiseRefresh with
  | some h => ⟨s, some h, []⟩
  | none =>
      let inner := loginWithIframe true s
      let h := inner.state.nextHandle
      let stuck := match inner.ret with
        | some x => decide (x ∈ inner.state.neverSettling)
        | none => false
      let ns := if stuck then h :: inner.state.neverSettling else inner.state.neverSettling
      ⟨{ inner.state with
          promiseRefresh := some h, nextHandle := h + 1, neverSettling := ns },
        some h, inner.transports⟩

/-- Value returned by the synchronous body of `retrieveAccessToken`: a promise
handle, a directly returned `Promise.reject(msg)` (a rejected promise — the
call itself returns normally), or a synchronous `throw msg`.  The last
constructor is here to distinguish the two delivery mechanisms; the modelled
body never produces it. -/
inductive RATRet
  | handle (h : Nat)
  | rejectedPromise (msg : String)
  | thrown (msg : String)
deriving DecidableEq

/-- Whether a `RATRet` is a synchronous throw. -/
def RATRet.isThrown : RATRet → Bool
  | RATRet.thrown _ => true
  | _ => false

/-- Result of a `retrieveAccessToken` call. -/
structure RATCall where
  state : AuthState
  ret : RATRet
  transports : List Transport
deriving DecidableEq

/-- Rejection message of salte-auth.js line 751. -/
def disabledLoginMsg : String :=
  "Automatic login is disabled, please login before making any requests!"

/-- Tail of `retrieveAccessToken` (salte-auth.js lines 759-785): the chains
appended with `.then` / `.catch` produce a fresh promise handle which is
stored in `$promises.token` and returned; it is chained on `inner.ret` and so
can never settle when that handle never settles. -/
def finishRAT (inner : CallResult) : RATCall :=
  let h := inner.state.nextHandle
  let stuck := match inner.ret with
    | some x => decide (x ∈ inner.state.neverSettling)
    | none => false
  let ns := if stuck then h :: inner.state.neverSettling else inner.state.neverSettling
  ⟨{ inner.state with
      promiseToken := some h, nextHandle := h + 1, neverSettling := ns },
    RATRet.handle h, inner.transports⟩

/-- The `retrieveAccessToken()` entry point (salte-auth.js lines 732-788): a
pending token promise is returned as-is; otherwise, when the cached credential
is missing or expired, the configured login flow is started (`iframe`,
`redirect`), or — with automatic login disabled — a pending login is reused if
one exists and otherwise `$promises.token` is reset to `null` and
`Promise.reject(new ReferenceError(...))` is returned (no synchronous throw);
an unrecognized `loginType` likewise returns a rejected promise.  In the
remaining cases the access-token chain is appended and stored. -/
def retrieveAccessToken (cfg : Config) (s : AuthState) : RATCall :=
  match s.promiseToken with
  | some h => ⟨s, RATRet.handle h, []⟩
  | none =>
      if (cfg.responseType = "code" ∧ s.profile.code = none) ∨
          (cfg.responseType ≠ "code" ∧ s.profile.idTokenExpired = true) then
        match cfg.loginType with
        | LoginType.iframe => finishRAT (loginWithIframe false s)
        | LoginType.redirect => finishRAT (loginWithRedirect s)
        | LoginType.disabled =>
            match s.promiseLogin with
            | some h => finishRAT ⟨s, some h, []⟩
            | none => ⟨s, RATRet.rejectedPromise disabledLoginMsg, []⟩
        | LoginType.other t =>
            ⟨s, RATRet.rejectedPromise ("Invalid Login Type (" ++ t ++ ")"), []⟩
      else
        finishRAT ⟨s, none, []⟩

/-- Outcome of the transport underlying a login-category flow: the transport
resolved and `profile.$validate()` then returned `none` or `some err`, or the
transport rejected. -/
inductive FlowOutcome
  | success (validateError : Option String)
  | failure (err : String)
deriving DecidableEq

/-- Data passed to a successful `login` event: `this.profile.code ||
this.profile.userInfo` (userInfo is decoded from the id token). -/
def userData (s : AuthState) : Option String :=
  match s.profile.code with
  | some c => some c
  | none => s.profile.idToken

/-- Result of running the settlement handlers of a stored chain: the updated
state, the lifecycle events fired (kind, error, data), and the rejection the
chain propagates to its callers, if any. -/
structure SettleResult where
  state : AuthState
  events : List (String × Option String × Option String)
  rejectedWith : Option String
deriving DecidableEq

/-- Settlement handlers of the login chains (salte-auth.js lines 431-450 for
iframe, 472-489 popup, 511-528 new tab): both the `.then` and the `.catch`
handler null out `$promises.login`; with `events` enabled a `login` event
fires either with the response or with the error; `clearOnError` is the
popup/new-tab behaviour of clearing the profile on a validation error. -/
def loginSettle (clearOnError events : Bool) (s : AuthState) (o : FlowOutcome) : SettleResult :=
  match o with
  | FlowOutcome.success none =>
      ⟨{ s with promiseLogin := none },
        if events then [("login", none, userData s)] else [], none⟩
  | FlowOutcome.success (some e) =>
      ⟨{ s with
          promiseLogin := none,
          profile := if clearOnError then s.profile.clear else s.profile },
        if events then [("login", some e, none)] else [], some e⟩
  | FlowOutcome.failure e =>
      ⟨{ s with promiseLogin := none },
        if events then [("login", some e, none)] else [], some e⟩

/-- Settlement handlers of the logout chains (salte-auth.js lines 584-591,
614-621, 645-652): both branches null out `$promises.logout` and fire a
`logout` event, with the transport error when it failed. -/
def logoutSettle (s : AuthState) (transportError : Option String) : SettleResult :=
  match transportError with
  | none => ⟨{ s with promiseLogout := none }, [("logout", none, none)], none⟩
  | some e => ⟨{ s with promiseLogout := none }, [("logout", some e, none)], some e⟩

/-- Settlement handlers of the `refreshToken` chain (salte-auth.js lines
680-694): every branch nulls out `$promises.refresh`; success revalidates and
fires `refresh` with the user or rejects with the validation error via the
`.catch`, which fires `refresh` with the error. -/
def refreshSettle (s : AuthState) (o : FlowOutcome) : SettleResult :=
  match o with
  | FlowOutcome.success none =>
      ⟨{ s with promiseRefresh := none }, [("refresh", none, userData s)], none⟩
  | FlowOutcome.success (some e) =>
      ⟨{ s with promiseRefresh := none }, [("refresh", some e, none)], some e⟩
  | FlowOutcome.failure e =>
      ⟨{ s with promiseRefresh := none }, [("refresh", some e, none)], some e⟩

/-- Settlement handlers of the `retrieveAccessToken` chain (salte-auth.js
lines 778-784): both branches null out `$promises.token`; no event fires. -/
def tokenSettle (s : AuthState) (transportError : Option String) : SettleResult :=
  match transportError with
  | none => ⟨{ s with promiseToken := none }, [], none⟩
  | some e => ⟨{ s with promiseToken := none }, [], some e⟩

/-- Result of `$$refreshToken` (salte-auth.js lines 701-726): the updated
state plus, for observation, whether each pre-existing timer was cancelled
(the `clearTimeout` guarded by `!== undefined`) and the delays the two fresh
timers were armed with. -/
structure ArmResult where
  state : AuthState
  cancelledRefresh : Bool
  cancelledExpired : Bool
  refreshDelay : Int
  expiredDelay : Int
deriving DecidableEq

/-- The `$$refreshToken` scheduler (salte-auth.js lines 701-726):
`timeToExpiration = userInfo.exp * 1000 - Date.now()`; the refresh timer is
armed at `max(timeToExpiration - autoRefreshBuffer, 0)` and the expired timer
at `max(timeToExpiration, 0)`. -/
def ssRefreshToken (cfg : Config) (expSeconds nowMs : Int) (s : AuthState) : ArmResult :=
  let cr := s.timeoutRefresh.isSome
  let ce := s.timeoutExpired.isSome
  let tte := expSeconds * 1000 - nowMs
  let rd := max (tte - cfg.autoRefreshBuffer) 0
  let ed := max tte 0
  ⟨{ s with timeoutRefresh := some rd, timeoutExpired := some ed }, cr, ce, rd, ed⟩

/-- Constructor wiring `this.on('login', ...)` / `this.on('refresh', ...)`
(salte-auth.js lines 194-204): when the event carries no error,
`$$refreshToken()` re-arms the timers. -/
def onLoginOrRefreshHandler (cfg : Config) (expSeconds nowMs : Int)
    (error : Option String) (s : AuthState) : AuthState :=
  match error with
  | some _ => s
  | none => (ssRefreshToken cfg expSeconds nowMs s).state

/-- Constructor wiring `this.on('logout', ...)` (salte-auth.js lines 206-208):
`clearTimeout(this.$timeouts.refresh)` — only the refresh timer is cancelled,
whatever the event's error argument. -/
def onLogoutHandler (s : AuthState) : AuthState :=
  { s with timeoutRefresh := none }

/-- A complete iframe logout: the entry point, the settlement of its chain
with the given transport outcome, and the `logout` event handler that the
fired event triggers. -/
def logoutRun (s : AuthState) (transportError : Option String) : AuthState :=
  onLogoutHandler (logoutSettle (logoutWithIframe s).state transportError).state

/-- Observable outcome of a timer firing. -/
structure TimerFire where
  state : AuthState
  events : List (String × Option String × Option String)
  transports : List Transport
  crashed : Bool
deriving DecidableEq

/-- The refresh-timer callback (salte-auth.js lines 712-721): with
`autoRefresh` enabled it invokes `this.refreshToken().catch(console.error)`
— starting the refresh flow and consuming any rejection — and fires no event
itself; otherwise it only fires `this.$fire('refresh')`, with no error and no
data, and starts nothing. -/
def fireRefreshTimer (cfg : Config) (s : AuthState) : TimerFire :=
  if cfg.autoRefresh then
    let r := refreshTokenOp s
    ⟨r.state, [], r.transports, false⟩
  else
    ⟨s, [("refresh", none, none)], [], false⟩

/-- Later failure of the refresh flow started by the refresh-timer callback:
the chain's `.catch` handlers fire the `refresh` event with the error and the
callback's own `.catch(console.error)` consumes the rejection, so the
scheduler never crashes. -/
def refreshTimerFlowFailure (s : AuthState) (e : String) : TimerFire :=
  let st := refreshSettle s (FlowOutcome.failure e)
  ⟨st.state, st.events, [], false⟩

/-- The expired-timer callback (salte-auth.js lines 723-725): it always fires
`this.$fire('expired')`, with no error and no data. -/
def fireExpiredTimer (s : AuthState) : TimerFire :=
  ⟨s, [("expired", none, none)], [], false⟩

/-- A constructed controller instance (what `window.salte.auth` holds). -/
structure AuthInstance where
  cfg : Config
deriving DecidableEq

/-- The singleton logic of the `SalteAuth` constructor (salte-auth.js lines
68-75): when `window.salte.auth` already holds an instance it is returned
immediately — before the config check, so the supplied config (even a missing
one) is ignored; only with no existing instance does a missing config raise
`ReferenceError('A config must be provided.')`. -/
def salteAuthConstruct (existing : Option AuthInstance) (config : Option Config) :
    Except String AuthInstance :=
  match existing with
  | some inst => Except.ok inst
  | none =>
      match config with
      | none => Except.error "A config must be provided."
      | some c => Except.ok ⟨c⟩

/-- The `provider` configuration value: absent, a string key into the
providers table, or a custom class/object. -/
inductive ProviderCfg
  | absent
  | named (s : String)
  | custom
deriving DecidableEq

/-- The `$provider` getter (salte-auth.js lines 234-248), parametrised by the
names present in the `Providers` table (that module is not among the
sources): a missing provider and an unknown string both throw
`ReferenceError` synchronously; a custom object is returned as-is. -/
def providerLookup (table : List String) (p : ProviderCfg) : Except String Unit :=
  match p with
  | ProviderCfg.absent => Except.error "A provider must be specified"
  | ProviderCfg.named s =>
      if s ∈ table then Except.ok ()
      else Except.error ("Unknown Provider (" ++ s ++ ")")
  | ProviderCfg.custom => Except.ok ()

/-- Small-step transition relation over the controller state: any entry point
may be called, any stored chain whose handle is settleable may settle (a
handle in `neverSettling` has no settlement step: its `new Promise(() => {})`
resolver never escapes, and a chain built on it can only settle after it),
timers may be armed by the login/refresh handlers and may fire. -/
inductive Step (cfg : Config) : AuthState → AuthState → Prop
  | liframe (r : Bool) (s : AuthState) : Step cfg s (loginWithIframe r s).state
  | lpopup (s : AuthState) : Step cfg s (loginWithPopup s).state
  | lnewTab (s : AuthState) : Step cfg s (loginWithNewTab s).state
  | lredirect (s : AuthState) : Step cfg s (loginWithRedirect s).state
  | loiframe (s : AuthState) : Step cfg s (logoutWithIframe s).state
  | lopopup (s : AuthState) : Step cfg s (logoutWithPopup s).state
  | lonewTab (s : AuthState) : Step cfg s (logoutWithNewTab s).state
  | loredirect (s : AuthState) : Step cfg s (logoutWithRedirect s).state
  | refresh (s : AuthState) : Step cfg s (refreshTokenOp s).state
  | rat (s : AuthState) : Step cfg s (retrieveAccessToken cfg s).state
  | settleLogin (c e : Bool) (s : AuthState) (h : Nat) (o : FlowOutcome)
      (hp : s.promiseLogin = some h) (hns : h ∉ s.neverSettling) :
      Step cfg s (loginSettle c e s o).state
  | settleLogout (s : AuthState) (h : Nat) (te : Option String)
      (hp : s.promiseLogout = some h) (hns : h ∉ s.neverSettling) :
      Step cfg s (logoutSettle s te).state
  | settleRefresh (s : AuthState) (h : Nat) (o : FlowOutcome)
      (hp : s.promiseRefresh = some h) (hns : h ∉ s.neverSettling) :
      Step cfg s (refreshSettle s o).state
  | settleToken (s : AuthState) (h : Nat) (te : Option String)
      (hp : s.promiseToken = some h) (hns : h ∉ s.neverSettling) :
      Step cfg s (tokenSettle s te).state
  | armTimers (expSeconds nowMs : Int) (error : Option String) (s : AuthState) :
      Step cfg s (onLoginOrRefreshHandler cfg expSeconds nowMs error s)
  | logoutEvent (s : AuthState) : Step cfg s (onLogoutHandler s)
  | fireRefresh (s : AuthState) : Step cfg s (fireRefreshTimer cfg s).state
  | fireRefreshFailure (s : AuthState) (e : String) :
      Step cfg s (refreshTimerFlowFailure s e).state
  | fireExpired (s : AuthState) : Step cfg s (fireExpiredTimer s).state

/-- The login category is stuck on handle `h`: it is the pending login
promise and it can never settle. -/
def loginStuck (h : Nat) (s : AuthState) : Prop :=
  s.promiseLogin = some h ∧ h ∈ s.neverSettling

instance (h : Nat) (s : AuthState) : Decidable (loginStuck h s) := by
  unfold loginStuck
  infer_instance

/-- Repeated synchronous calls of `retrieveAccessToken`, collecting every
returned value and every transport opened. -/
def ratCalls (cfg : Config) : Nat → AuthState → List RATRet × List Transport
  | 0, _ => ([], [])
  | n + 1, s =>
      let r := retrieveAccessToken cfg s
      let rest := ratCalls cfg n r.state
      (r.ret :: rest.1, r.transports ++ rest.2)

/-- Example profile carrying an unexpired id token. -/
def freshProfile : Profile :=
  ⟨some "id-token", some "access-token", none, none, none, false, false⟩

/-- Example profile with nothing cached: every credential absent, both expiry
predicates true. -/
def expiredProfile : Profile := ⟨none, none, none, none, none, true, true⟩

/-- Controller state with no pending operation and no armed timer. -/
def idleState : AuthState := ⟨none, none, none, none, none, none, expiredProfile, 0, []⟩

/-- Controller state holding a valid session with both renewal timers armed. -/
def armedState : AuthState :=
  ⟨none, none, none, none, some 60000, some 120000, freshProfile, 10, []⟩

/-- Example configuration: iframe login, auto refresh on, default buffer. -/
def iframeCfg : Config := ⟨LoginType.iframe, true, 60000, "id_token"⟩

/-- Example configuration with automatic login disabled (`loginType: false`). -/
def disabledCfg : Config := ⟨LoginType.disabled, true, 60000, "id_token"⟩

theorem jsIndexOfAux_not_mem (x : Nat) :
    ∀ (l : List Nat), x ∉ l → ∀ (i : Nat), jsIndexOfAux x l i = -1
  | [], _, _ => rfl
  | y :: rest, hx, i => by
      have hyx : ¬ y = x := fun hyx => hx (by simp [hyx])
      have hrest : x ∉ rest := fun hm => hx (List.mem_cons_of_mem _ hm)
      simp only [jsIndexOfAux, if_neg hyx]
      exact jsIndexOfAux_not_mem x rest hrest (i + 1)

theorem jsIndexOf_not_mem (x : Nat) (l : List Nat) (hx : x ∉ l) : jsIndexOf l x = -1 :=
  jsIndexOfAux_not_mem x l hx 0

theorem jsSplice1_neg_one (l : List Nat) (hl : l ≠ []) : jsSplice1 l (-1) = l.dropLast := by
  have hlen : 1 ≤ l.length := List.length_pos.mpr hl
  simp only [jsSplice1]
  rw [if_pos (by norm_num)]
  have hmax : max ((l.length : Int) + -1) 0 = (l.length : Int) - 1 := by
    rw [max_eq_left]; · ring
    omega
  rw [hmax]
  have hton : ((l.length : Int) - 1).toNat = l.length - 1 := by omega
  rw [hton, ← List.dropLast_eq_eraseIdx]
  omega

/-- C10: for a kind whose listener list is non-empty, `off` with a callable
callback that is not registered for that kind removes the most recently
registered listener of that kind (JavaScript `indexOf` yields `-1` and
`splice(-1, 1)` removes the last element) instead of leaving the list
unchanged. -/
theorem C10_off_unregistered_removes_last (r : ListenerRegistry) (k : String)
    (cb : JsCallback) (hk : k ∈ eventKinds) (hc : cb.callable = true)
    (hne : r.get k ≠ []) (hmem : cb.id ∉ r.get k) :
    jsOff r k cb = Except.ok (r.set k ((r.get k).dropLast)) := by
  simp only [jsOff]
  rw [if_neg (by simp [hk]), if_neg (by simp [hc])]
  rw [if_neg (by simp [List.isEmpty_iff, hne])]
  rw [jsIndexOf_not_mem cb.id (r.get k) hmem, jsSplice1_neg_one (r.get k) hne]

theorem C10_off_unregistered_removes_last_witness :
    jsOff ⟨[1, 2, 3], [], [], []⟩ "login" ⟨5, true⟩ =
      Except.ok (ListenerRegistry.set ⟨[1, 2, 3], [], [], []⟩ "login"
        (List.dropLast (ListenerRegistry.get ⟨[1, 2, 3], [], [], []⟩ "login"))) :=
  C10_off_unregistered_removes_last ⟨[1, 2, 3], [], [], []⟩ "login" ⟨5, true⟩
    (by decide) rfl (by decide) (by decide)

/-- C9: constructing a `SalteAuth` controller while an instance already
exists on the page returns that instance unchanged, whatever configuration
(including none) was supplied; only with no existing instance does a missing
config raise `ReferenceError('A config must be provided.')`. -/
theorem C9_constructor_singleton :
    (∀ (inst : AuthInstance) (config : Option Config),
        salteAuthConstruct (some inst) config = Except.ok inst) ∧
    salteAuthConstruct none none = Except.error "A config must be provided." ∧
    (∀ c : Config, salteAuthConstruct none (some c) = Except.ok ⟨c⟩) :=
  ⟨fun _ _ => rfl, rfl, fun _ => rfl⟩

/-- C2: the scheduler run on a successful login or refresh cancels exactly
the timers that existed, computes `timeToExpiration = exp·1000 − now`, and
arms the refresh timer at `max(timeToExpiration − autoRefreshBuffer, 0)` ms
and the expired timer at `max(timeToExpiration, 0)` ms; in particular with
`autoRefreshBuffer = 60000` and expiry 120000 ms after now, the refresh timer
arms at 60000 ms and the expired timer at 120000 ms. -/
theorem C2_scheduler_arms_timers :
    (∀ (cfg : Config) (expSeconds nowMs : Int) (s : AuthState),
      (ssRefreshToken cfg expSeconds nowMs s).refreshDelay =
        max ((expSeconds * 1000 - nowMs) - cfg.autoRefreshBuffer) 0 ∧
      (ssRefreshToken cfg expSeconds nowMs s).expiredDelay =
        max (expSeconds * 1000 - nowMs) 0 ∧
      (ssRefreshToken cfg expSeconds nowMs s).state.timeoutRefresh =
        some ((ssRefreshToken cfg expSeconds nowMs s).refreshDelay) ∧
      (ssRefreshToken cfg expSeconds nowMs s).state.timeoutExpired =
        some ((ssRefreshToken cfg expSeconds nowMs s).expiredDelay) ∧
      (ssRefreshToken cfg expSeconds nowMs s).cancelledRefresh = s.timeoutRefresh.isSome ∧
      (ssRefreshToken cfg expSeconds nowMs s).cancelledExpired = s.timeoutExpired.isSome ∧
      onLoginOrRefreshHandler cfg expSeconds nowMs none s =
        (ssRefreshToken cfg expSeconds nowMs s).state ∧
      (∀ e : String, onLoginOrRefreshHandler cfg expSeconds nowMs (some e) s = s)) ∧
    (ssRefreshToken iframeCfg 120 0 armedState).refreshDelay = 60000 ∧
    (ssRefreshToken iframeCfg 120 0 armedState).expiredDelay = 120000 ∧
    (ssRefreshToken iframeCfg 120 0 armedState).cancelledRefresh = true ∧
    (ssRefreshToken iframeCfg 120 0 armedState).cancelledExpired = true := by
  refine ⟨fun cfg expSeconds nowMs s => ⟨rfl, rfl, rfl, rfl, rfl, rfl, rfl, fun _ => rfl⟩,
    by decide, by decide, by decide, by decide⟩

/-- C5: for every category, running the settlement handlers of the stored
chain — on success as on failure, independently of any caller observing the
result — nulls the category's pending handle, so that a subsequent request of
the category starts a new flow (a fresh transport for login and logout, a
fresh chain handle for refresh). -/
theorem C5_settle_resets_category (c e : Bool) (s : AuthState) (o : FlowOutcome)
    (te : Option String) :
    (loginSettle c e s o).state.promiseLogin = none ∧
    (logoutSettle s te).state.promiseLogout = none ∧
    (refreshSettle s o).state.promiseRefresh = none ∧
    (tokenSettle s te).state.promiseToken = none ∧
    (loginWithIframe false (loginSettle c e s o).state).transports = [Transport.iframe] ∧
    (logoutWithIframe (logoutSettle s te).state).transports = [Transport.iframe] ∧
    (refreshTokenOp (refreshSettle s o).state).ret =
      some (loginWithIframe true (refreshSettle s o).state).state.nextHandle := by
  rcases o with (_ | v) | err <;> rcases te with _ | t <;>
    simp [loginSettle, logoutSettle, refreshSettle, tokenSettle, loginWithIframe,
      logoutWithIframe, refreshTokenOp]

/-- C3 counterexample: with listeners `0` and `1` registered for a kind in
that order and listener `0` throwing, `$fire` invokes listener `0` and then
stops — listener `1` is never invoked — so a throwing listener does prevent
the subsequent listeners from running (the plain `forEach` of salte-auth.js
line 389 has no exception isolation). -/
theorem C3_throwing_listener_stops_fire :
    fire (fun n => n == 0) [0, 1] none none =
      ⟨(none, none), [(0, none, none)], some 0⟩ ∧
    (1, (none : Option String), (none : Option String)) ∉
      (fire (fun n => n == 0) [0, 1] none none).calls := by
  decide

/-- C3 (amended): `$fire` always sends the platform-wide broadcast carrying
`(error, data)` and invokes the registered listeners in registration order
with `(error, data)`; when no listener throws, every listener runs; a
listener that throws, however, stops the iteration, so the listeners
registered after it do not run and its exception propagates out of `$fire`. -/
theorem C3_fire_invokes_in_order (beh : Nat → Bool) (ls : List Nat) (e d : Option String)
    (hno : ∀ l ∈ ls, beh l = false) :
    (fire beh ls e d).broadcast = (e, d) ∧
    (fire beh ls e d).calls = ls.map (fun l => (l, e, d)) ∧
    (fire beh ls e d).thrown = none ∧
    (∀ (l : Nat) (rest : List Nat), beh l = true →
      (fire beh (l :: rest) e d).calls = [(l, e, d)]) := by
  refine ⟨rfl, ?_, ?_, fun l rest hl => ?_⟩
  · induction ls with
    | nil => rfl
    | cons a rest ih =>
        have ha : beh a = false := hno a (List.mem_cons_self a rest)
        have hrest : ∀ l ∈ rest, beh l = false :=
          fun l hm => hno l (List.mem_cons_of_mem a hm)
        simp only [fire, fireCalls, ha, if_neg Bool.false_ne_true, List.map_cons,
          ite_false]
        exact congrArg _ (ih hrest)
  · induction ls with
    | nil => rfl
    | cons a rest ih =>
        have ha : beh a = false := hno a (List.mem_cons_self a rest)
        have hrest : ∀ l ∈ rest, beh l = false :=
          fun l hm => hno l (List.mem_cons_of_mem a hm)
        simp only [fire, fireThrown, ha, ite_false]
        exact ih hrest
  · simp [fire, fireCalls, hl]

theorem C3_fire_invokes_in_order_witness :
    (fire (fun _ => false) [3, 4] (some "err") (some "data")).broadcast =
      (some "err", some "data") ∧
    (fire (fun _ => false) [3, 4] (some "err") (some "data")).calls =
      [3, 4].map (fun l => (l, some "err", some "data")) :=
  ⟨(C3_fire_invokes_in_order (fun _ => false) [3, 4] (some "err") (some "data")
      (fun _ _ => rfl)).1,
    (C3_fire_invokes_in_order (fun _ => false) [3, 4] (some "err") (some "data")
      (fun _ _ => rfl)).2.1⟩

/-- C6: when the refresh timer fires with automatic refresh enabled, the
refresh flow is invoked (a pending refresh handle appears and the scheduler
records no event of its own) and a later failure of that flow only fires the
`refresh` event with the error — nothing crashes; with automatic refresh
disabled only the `refresh` event is emitted, with no error and no data, and
no flow is started; the expired timer always emits the `expired` event,
whatever the configuration. -/
theorem C6_timer_callbacks (cfg : Config) (s : AuthState) (e : String) :
    (cfg.autoRefresh = true →
      (fireRefreshTimer cfg s).state = (refreshTokenOp s).state ∧
      (fireRefreshTimer cfg s).events = [] ∧
      (s.promiseRefresh = none →
        (fireRefreshTimer cfg s).state.promiseRefresh =
          some (loginWithIframe true s).state.nextHandle)) ∧
    (cfg.autoRefresh = false →
      fireRefreshTimer cfg s = ⟨s, [("refresh", none, none)], [], false⟩) ∧
    (fireRefreshTimer cfg s).crashed = false ∧
    refreshTimerFlowFailure s e =
      ⟨(refreshSettle s (FlowOutcome.failure e)).state, [("refresh", some e, none)], [], false⟩ ∧
    (refreshTimerFlowFailure s e).crashed = false ∧
    fireExpiredTimer s = ⟨s, [("expired", none, none)], [], false⟩ := by
  refine ⟨fun ha => ?_, fun ha => ?_, ?_, rfl, rfl, rfl⟩
  · refine ⟨by simp [fireRefreshTimer, ha], by simp [fireRefreshTimer, ha], fun hr => ?_⟩
    simp [fireRefreshTimer, ha, refreshTokenOp, hr]
  · simp [fireRefreshTimer, ha]
  · by_cases ha : cfg.autoRefresh <;> simp [fireRefreshTimer, ha]

theorem C6_timer_callbacks_witness :
    (fireRefreshTimer iframeCfg idleState).state = (refreshTokenOp idleState).state ∧
    (fireRefreshTimer iframeCfg idleState).state.promiseRefresh =
      some (loginWithIframe true idleState).state.nextHandle ∧
    fireRefreshTimer ⟨LoginType.iframe, false, 60000, "id_token"⟩ idleState =
      ⟨idleState, [("refresh", none, none)], [], false⟩ :=
  ⟨((C6_timer_callbacks iframeCfg idleState "boom").1 rfl).1,
    ((C6_timer_callbacks iframeCfg idleState "boom").1 rfl).2.2 rfl,
    ((C6_timer_callbacks ⟨LoginType.iframe, false, 60000, "id_token"⟩ idleState "boom").2.1 rfl)⟩

/-- C8 counterexample: with `loginType: false`, no login in flight and an
expired session, `retrieveAccessToken()` returns normally with
`Promise.reject(new ReferenceError(...))` — a rejected promise, not a
synchronous throw — refuting the part of the claim that places the
disabled-login-type error among the synchronously thrown configuration
errors. -/
theorem C8_disabled_login_rejects_not_throws :
    (retrieveAccessToken disabledCfg idleState).ret =
      RATRet.rejectedPromise disabledLoginMsg ∧
    (retrieveAccessToken disabledCfg idleState).ret.isThrown = false ∧
    (retrieveAccessToken disabledCfg idleState).state = idleState := by
  decide

/-- C8 (amended): the unknown-provider, unknown-event-kind and non-callable
listener configuration errors are thrown synchronously at the misusing call;
the disabled-login-type error, by contrast, is delivered as the rejection of
the promise returned by `retrieveAccessToken()` (the call itself returns
normally, leaving no token request pending). -/
theorem C8_config_error_delivery (table : List String) (p : String)
    (r : ListenerRegistry) (k k2 : String) (cb cb2 : JsCallback)
    (cfg : Config) (s : AuthState)
    (hp : p ∉ table) (hk : k ∉ eventKinds) (hk2 : k2 ∈ eventKinds)
    (hcb2 : cb2.callable = false)
    (hlt : cfg.loginType = LoginType.disabled) (hrt : cfg.responseType ≠ "code")
    (htok : s.promiseToken = none) (hlog : s.promiseLogin = none)
    (hexp : s.profile.idTokenExpired = true) :
    providerLookup table ProviderCfg.absent =
      Except.error "A provider must be specified" ∧
    providerLookup table (ProviderCfg.named p) =
      Except.error ("Unknown Provider (" ++ p ++ ")") ∧
    jsOn r k cb = Except.error ("Unknown Event Type (" ++ k ++ ")") ∧
    jsOff r k cb = Except.error ("Unknown Event Type (" ++ k ++ ")") ∧
    jsOn r k2 cb2 = Except.error "Invalid callback provided!" ∧
    retrieveAccessToken cfg s = ⟨s, RATRet.rejectedPromise disabledLoginMsg, []⟩ ∧
    (retrieveAccessToken cfg s).ret.isThrown = false := by
  have hrat : retrieveAccessToken cfg s = ⟨s, RATRet.rejectedPromise disabledLoginMsg, []⟩ := by
    simp only [retrieveAccessToken, htok, hlt, hlog]
    rw [if_pos (Or.inr ⟨hrt, hexp⟩)]
  refine ⟨rfl, by simp [providerLookup, hp], by simp [jsOn, hk], by simp [jsOff, hk],
    ?_, hrat, by rw [hrat]; rfl⟩
  simp [jsOn, hk2, hcb2]

theorem C8_config_error_delivery_witness :
    providerLookup ["auth0"] (ProviderCfg.named "nope") =
      Except.error ("Unknown Provider (" ++ "nope" ++ ")") ∧
    jsOn ⟨[], [], [], []⟩ "create" ⟨0, true⟩ =
      Except.error ("Unknown Event Type (" ++ "create" ++ ")") ∧
    jsOn ⟨[], [], [], []⟩ "login" ⟨0, false⟩ =
      Except.error "Invalid callback provided!" ∧
    retrieveAccessToken disabledCfg idleState =
      ⟨idleState, RATRet.rejectedPromise disabledLoginMsg, []⟩ :=
  ⟨(C8_config_error_delivery ["auth0"] "nope" ⟨[], [], [], []⟩ "create" "login"
      ⟨0, true⟩ ⟨0, false⟩ disabledCfg idleState (by decide) (by decide) (by decide)
      rfl rfl (by decide) rfl rfl rfl).2.1,
    (C8_config_error_delivery ["auth0"] "nope" ⟨[], [], [], []⟩ "create" "login"
      ⟨0, true⟩ ⟨0, false⟩ disabledCfg idleState (by decide) (by decide) (by decide)
      rfl rfl (by decide) rfl rfl rfl).2.2.1,
    (C8_config_error_delivery ["auth0"] "nope" ⟨[], [], [], []⟩ "create" "login"
      ⟨0, true⟩ ⟨0, false⟩ disabledCfg idleState (by decide) (by decide) (by decide)
      rfl rfl (by decide) rfl rfl rfl).2.2.2.2.1,
    (C8_config_error_delivery ["auth0"] "nope" ⟨[], [], [], []⟩ "create" "login"
      ⟨0, true⟩ ⟨0, false⟩ disabledCfg idleState (by decide) (by decide) (by decide)
      rfl rfl (by decide) rfl rfl rfl).2.2.2.2.2.1⟩

/-- C4 counterexample: from a state with both renewal timers armed, an iframe
logout whose deauthorization transport fails does clear the profile and the
refresh timer, but the expired timer is still armed afterwards — the
`on('logout')` handler of salte-auth.js lines 206-208 runs only
`clearTimeout(this.$timeouts.refresh)` — refuting "cancels both pending
renewal timers". -/
theorem C4_expired_timer_survives_logout :
    (logoutRun armedState (some "transport failed")).timeoutExpired = some 120000 ∧
    (logoutRun armedState (some "transport failed")).timeoutExpired ≠ none ∧
    (logoutRun armedState (some "transport failed")).timeoutRefresh = none ∧
    (logoutRun armedState (some "transport failed")).profile = freshProfile.clear := by
  decide

/-- C4 (amended): every logout operation clears the cached tokens (the
Session Profile) at its start, and — through the `logout` event fired whether
the deauthorization transport succeeds or fails — the refresh timer is
cancelled; the expired timer, however, is left untouched. -/
theorem C4_logout_clears_profile_and_refresh_timer (s : AuthState)
    (te : Option String) (hp : s.promiseLogout = none) :
    (logoutWithIframe s).state.profile = s.profile.clear ∧
    (logoutWithPopup s).state.profile = s.profile.clear ∧
    (logoutWithNewTab s).state.profile = s.profile.clear ∧
    (logoutWithRedirect s).state.profile = s.profile.clear ∧
    (logoutRun s te).profile = s.profile.clear ∧
    (logoutRun s te).timeoutRefresh = none ∧
    (logoutRun s te).timeoutExpired = s.timeoutExpired := by
  rcases te with _ | t <;>
    simp [logoutWithIframe, logoutWithPopup, logoutWithNewTab, logoutWithRedirect,
      logoutRun, logoutSettle, onLogoutHandler, hp]

theorem C4_logout_clears_profile_and_refresh_timer_witness :
    (logoutRun armedState none).profile = armedState.profile.clear ∧
    (logoutRun armedState none).timeoutRefresh = none ∧
    (logoutRun armedState none).timeoutExpired = armedState.timeoutExpired :=
  ⟨(C4_logout_clears_profile_and_refresh_timer armedState none rfl).2.2.2.2.1,
    (C4_logout_clears_profile_and_refresh_timer armedState none rfl).2.2.2.2.2.1,
    (C4_logout_clears_profile_and_refresh_timer armedState none rfl).2.2.2.2.2.2⟩

/-- Controller state in which an iframe logout is pending under handle 7. -/
def pendingLogoutState : AuthState :=
  ⟨none, some 7, none, none, none, none, freshProfile, 10, []⟩

theorem finishRAT_fields (inner : CallResult) :
    (finishRAT inner).ret = RATRet.handle inner.state.nextHandle ∧
    (finishRAT inner).transports = inner.transports ∧
    (finishRAT inner).state.promiseToken = some inner.state.nextHandle := by
  simp [finishRAT]

theorem ratCalls_pending (cfg : Config) (k : Nat) :
    ∀ (n : Nat) (s : AuthState), s.promiseToken = some k →
      ratCalls cfg n s = (List.replicate n (RATRet.handle k), [])
  | 0, _, _ => rfl
  | n + 1, s, hp => by
      have hone : retrieveAccessToken cfg s = ⟨s, RATRet.handle k, []⟩ := by
        simp [retrieveAccessToken, hp]
      simp only [ratCalls, hone, List.replicate]
      rw [ratCalls_pending cfg k n s hp]
      rfl

/-- C1 counterexample: with an iframe logout pending under handle 7, a new
logout request through `logoutWithRedirect` does not return the pending
handle (it returns nothing) and opens a navigation transport — salte-auth.js
lines 663-669 consult no pending promise — so the claim's universal
de-duplication contract fails for the logout category. -/
theorem C1_logoutWithRedirect_ignores_pending :
    pendingLogoutState.promiseLogout = some 7 ∧
    (logoutWithRedirect pendingLogoutState).ret = none ∧
    (logoutWithRedirect pendingLogoutState).transports = [Transport.navigate] := by
  decide

/-- C1 (amended): for the promise-returning operations of each category — the
four login flows, the iframe/popup/new-tab logout flows, `refreshToken` and
`retrieveAccessToken` — a request made while the category is pending returns
the same pending handle, changes no state and opens no transport;
`logoutWithRedirect`, however, ignores any pending logout and navigates
unconditionally.  Concurrent calls of `retrieveAccessToken()` while no valid
token is cached initiate exactly one authorization flow (one iframe) and all
receive the same handle, hence the same eventual result. -/
theorem C1_category_dedup (cfg : Config) (s : AuthState) (h : Nat) (r : Bool) (n : Nat) :
    (s.promiseLogin = some h →
      loginWithIframe r s = ⟨s, some h, []⟩ ∧
      loginWithPopup s = ⟨s, some h, []⟩ ∧
      loginWithNewTab s = ⟨s, some h, []⟩ ∧
      loginWithRedirect s = ⟨s, some h, []⟩) ∧
    (s.promiseLogout = some h →
      logoutWithIframe s = ⟨s, some h, []⟩ ∧
      logoutWithPopup s = ⟨s, some h, []⟩ ∧
      logoutWithNewTab s = ⟨s, some h, []⟩) ∧
    (s.promiseRefresh = some h → refreshTokenOp s = ⟨s, some h, []⟩) ∧
    (s.promiseToken = some h → retrieveAccessToken cfg s = ⟨s, RATRet.handle h, []⟩) ∧
    (cfg.loginType = LoginType.iframe → cfg.responseType ≠ "code" →
      s.promiseToken = none → s.promiseLogin = none → s.profile.idTokenExpired = true →
      (retrieveAccessToken cfg s).transports = [Transport.iframe] ∧
      (retrieveAccessToken cfg s).ret = RATRet.handle (s.nextHandle + 1) ∧
      ratCalls cfg n (retrieveAccessToken cfg s).state =
        (List.replicate n (RATRet.handle (s.nextHandle + 1)), [])) := by
  refine ⟨fun hp => ?_, fun hp => ?_, fun hp => ?_, fun hp => ?_,
    fun hlt hrt htok hlog hexp => ?_⟩
  · exact ⟨by simp [loginWithIframe, hp], by simp [loginWithPopup, hp],
      by simp [loginWithNewTab, hp], by simp [loginWithRedirect, hp]⟩
  · exact ⟨by simp [logoutWithIframe, hp], by simp [logoutWithPopup, hp],
      by simp [logoutWithNewTab, hp]⟩
  · simp [refreshTokenOp, hp]
  · simp [retrieveAccessToken, hp]
  · have hinner : loginWithIframe false s =
        ⟨{ s with
            promiseLogin := some s.nextHandle, nextHandle := s.nextHandle + 1,
            profile := s.profile.clear }, some s.nextHandle, [Transport.iframe]⟩ := by
      simp [loginWithIframe, hlog]
    have hfirst : retrieveAccessToken cfg s = finishRAT (loginWithIframe false s) := by
      simp only [retrieveAccessToken, htok]
      rw [if_pos (Or.inr ⟨hrt, hexp⟩), hlt]
    have hfields := finishRAT_fields (loginWithIframe false s)
    refine ⟨?_, ?_, ?_⟩
    · rw [hfirst, hfields.2.1, hinner]
    · rw [hfirst, hfields.1, hinner]
    · have hpend : (retrieveAccessToken cfg s).state.promiseToken =
          some (s.nextHandle + 1) := by
        rw [hfirst]
        rw [hinner] at hfields ⊢
        exact hfields.2.2
      exact ratCalls_pending cfg (s.nextHandle + 1) n _ hpend

theorem C1_category_dedup_witness :
    (retrieveAccessToken iframeCfg idleState).transports = [Transport.iframe] ∧
    (retrieveAccessToken iframeCfg idleState).ret =
      RATRet.handle (idleState.nextHandle + 1) ∧
    ratCalls iframeCfg 2 (retrieveAccessToken iframeCfg idleState).state =
      (List.replicate 2 (RATRet.handle (idleState.nextHandle + 1)), []) :=
  (C1_category_dedup iframeCfg idleState 0 false 2).2.2.2.2
    rfl (by decide) rfl rfl rfl

theorem finishRAT_stuck (h : Nat) (inner : CallResult)
    (hp : inner.state.promiseLogin = some h)
    (hns : h ∈ inner.state.neverSettling) :
    loginStuck h (finishRAT inner).state := by
  unfold loginStuck finishRAT
  refine ⟨hp, ?_⟩
  simp only []
  split
  · exact List.mem_cons_of_mem _ hns
  · exact hns

theorem refreshTokenOp_stuck (h : Nat) (s : AuthState)
    (hp : s.promiseLogin = some h) (hns : h ∈ s.neverSettling) :
    loginStuck h (refreshTokenOp s).state := by
  unfold refreshTokenOp
  cases hq : s.promiseRefresh with
  | some k => exact ⟨hp, hns⟩
  | none =>
      have hinner : loginWithIframe true s = ⟨s, some h, []⟩ := by
        simp [loginWithIframe, hp]
      rw [hinner]
      refine ⟨hp, ?_⟩
      simp only []
      split
      · exact List.mem_cons_of_mem _ hns
      · exact hns

theorem retrieveAccessToken_stuck (cfg : Config) (h : Nat) (s : AuthState)
    (hp : s.promiseLogin = some h) (hns : h ∈ s.neverSettling) :
    loginStuck h (retrieveAccessToken cfg s).state := by
  rcases hq : s.promiseToken with _ | k
  · by_cases hcond : (cfg.responseType = "code" ∧ s.profile.code = none) ∨
        (cfg.responseType ≠ "code" ∧ s.profile.idTokenExpired = true)
    · rcases hlt : cfg.loginType with _ | _ | _ | t
      · have heq : retrieveAccessToken cfg s = finishRAT (loginWithIframe false s) := by
          simp only [retrieveAccessToken, hq]
          rw [if_pos hcond, hlt]
        have hinner : loginWithIframe false s = ⟨s, some h, []⟩ := by
          simp [loginWithIframe, hp]
        rw [heq, hinner]
        exact finishRAT_stuck h ⟨s, some h, []⟩ hp hns
      · have heq : retrieveAccessToken cfg s = finishRAT (loginWithRedirect s) := by
          simp only [retrieveAccessToken, hq]
          rw [if_pos hcond, hlt]
        have hinner : loginWithRedirect s = ⟨s, some h, []⟩ := by
          simp [loginWithRedirect, hp]
        rw [heq, hinner]
        exact finishRAT_stuck h ⟨s, some h, []⟩ hp hns
      · have heq : retrieveAccessToken cfg s = finishRAT ⟨s, some h, []⟩ := by
          simp only [retrieveAccessToken, hq]
          rw [if_pos hcond, hlt, hp]
        rw [heq]
        exact finishRAT_stuck h ⟨s, some h, []⟩ hp hns
      · have heq : retrieveAccessToken cfg s =
            ⟨s, RATRet.rejectedPromise ("Invalid Login Type (" ++ t ++ ")"), []⟩ := by
          simp only [retrieveAccessToken, hq]
          rw [if_pos hcond, hlt]
        rw [heq]
        exact ⟨hp, hns⟩
    · have heq : retrieveAccessToken cfg s = finishRAT ⟨s, none, []⟩ := by
        simp only [retrieveAccessToken, hq]
        rw [if_neg hcond]
      rw [heq]
      exact finishRAT_stuck h ⟨s, none, []⟩ hp hns
  · have heq : retrieveAccessToken cfg s = ⟨s, RATRet.handle k, []⟩ := by
      simp [retrieveAccessToken, hq]
    rw [heq]
    exact ⟨hp, hns⟩

theorem logoutSettle_fields (s : AuthState) (te : Option String) :
    (logoutSettle s te).state.promiseLogin = s.promiseLogin ∧
    (logoutSettle s te).state.neverSettling = s.neverSettling := by
  cases te <;> simp [logoutSettle]

theorem refreshSettle_fields (s : AuthState) (o : FlowOutcome) :
    (refreshSettle s o).state.promiseLogin = s.promiseLogin ∧
    (refreshSettle s o).state.neverSettling = s.neverSettling := by
  rcases o with (_ | v) | e <;> simp [refreshSettle]

theorem tokenSettle_fields (s : AuthState) (te : Option String) :
    (tokenSettle s te).state.promiseLogin = s.promiseLogin ∧
    (tokenSettle s te).state.neverSettling = s.neverSettling := by
  cases te <;> simp [tokenSettle]

theorem onHandler_fields (cfg : Config) (expSeconds nowMs : Int)
    (error : Option String) (s : AuthState) :
    (onLoginOrRefreshHandler cfg expSeconds nowMs error s).promiseLogin = s.promiseLogin ∧
    (onLoginOrRefreshHandler cfg expSeconds nowMs error s).neverSettling = s.neverSettling := by
  cases error <;> simp [onLoginOrRefreshHandler, ssRefreshToken]

theorem loginWithIframe_pending (r : Bool) (s : AuthState) (h : Nat)
    (hp : s.promiseLogin = some h) : loginWithIframe r s = ⟨s, some h, []⟩ := by
  simp [loginWithIframe, hp]

theorem loginWithPopup_pending (s : AuthState) (h : Nat)
    (hp : s.promiseLogin = some h) : loginWithPopup s = ⟨s, some h, []⟩ := by
  simp [loginWithPopup, hp]

theorem loginWithNewTab_pending (s : AuthState) (h : Nat)
    (hp : s.promiseLogin = some h) : loginWithNewTab s = ⟨s, some h, []⟩ := by
  simp [loginWithNewTab, hp]

theorem loginWithRedirect_pending (s : AuthState) (h : Nat)
    (hp : s.promiseLogin = some h) : loginWithRedirect s = ⟨s, some h, []⟩ := by
  simp [loginWithRedirect, hp]

theorem logoutOp_fields (s : AuthState) :
    (logoutWithIframe s).state.promiseLogin = s.promiseLogin ∧
    (logoutWithIframe s).state.neverSettling = s.neverSettling ∧
    (logoutWithPopup s).state.promiseLogin = s.promiseLogin ∧
    (logoutWithPopup s).state.neverSettling = s.neverSettling ∧
    (logoutWithNewTab s).state.promiseLogin = s.promiseLogin ∧
    (logoutWithNewTab s).state.neverSettling = s.neverSettling ∧
    (logoutWithRedirect s).state.promiseLogin = s.promiseLogin ∧
    (logoutWithRedirect s).state.neverSettling = s.neverSettling := by
  rcases hq : s.promiseLogout with _ | k <;>
    simp [logoutWithIframe, logoutWithPopup, logoutWithNewTab, logoutWithRedirect, hq]

theorem step_preserves_loginStuck {cfg : Config} {s s' : AuthState} (h : Nat)
    (hst : loginStuck h s) (hstep : Step cfg s s') : loginStuck h s' := by
  obtain ⟨hp, hns⟩ := hst
  cases hstep with
  | liframe r _ =>
      rw [loginWithIframe_pending r s h hp]
      exact ⟨hp, hns⟩
  | lpopup _ =>
      rw [loginWithPopup_pending s h hp]
      exact ⟨hp, hns⟩
  | lnewTab _ =>
      rw [loginWithNewTab_pending s h hp]
      exact ⟨hp, hns⟩
  | lredirect _ =>
      rw [loginWithRedirect_pending s h hp]
      exact ⟨hp, hns⟩
  | loiframe _ =>
      refine ⟨?_, ?_⟩
      · rw [(logoutOp_fields s).1]; exact hp
      · rw [(logoutOp_fields s).2.1]; exact hns
  | lopopup _ =>
      refine ⟨?_, ?_⟩
      · rw [(logoutOp_fields s).2.2.1]; exact hp
      · rw [(logoutOp_fields s).2.2.2.1]; exact hns
  | lonewTab _ =>
      refine ⟨?_, ?_⟩
      · rw [(logoutOp_fields s).2.2.2.2.1]; exact hp
      · rw [(logoutOp_fields s).2.2.2.2.2.1]; exact hns
  | loredirect _ =>
      refine ⟨?_, ?_⟩
      · rw [(logoutOp_fields s).2.2.2.2.2.2.1]; exact hp
      · rw [(logoutOp_fields s).2.2.2.2.2.2.2]; exact hns
  | refresh _ => exact refreshTokenOp_stuck h s hp hns
  | rat _ => exact retrieveAccessToken_stuck cfg h s hp hns
  | settleLogin c e _ h' o hp' hns' =>
      rw [hp] at hp'
      injection hp' with heq
      exact absurd (heq ▸ hns) hns'
  | settleLogout _ h' te hp' hns' =>
      refine ⟨?_, ?_⟩
      · rw [(logoutSettle_fields s te).1]; exact hp
      · rw [(logoutSettle_fields s te).2]; exact hns
  | settleRefresh _ h' o hp' hns' =>
      refine ⟨?_, ?_⟩
      · rw [(refreshSettle_fields s o).1]; exact hp
      · rw [(refreshSettle_fields s o).2]; exact hns
  | settleToken _ h' te hp' hns' =>
      refine ⟨?_, ?_⟩
      · rw [(tokenSettle_fields s te).1]; exact hp
      · rw [(tokenSettle_fields s te).2]; exact hns
  | armTimers expSeconds nowMs error _ =>
      refine ⟨?_, ?_⟩
      · rw [(onHandler_fields cfg expSeconds nowMs error s).1]; exact hp
      · rw [(onHandler_fields cfg expSeconds nowMs error s).2]; exact hns
  | logoutEvent _ => exact ⟨hp, hns⟩
  | fireRefresh _ =>
      by_cases ha : cfg.autoRefresh
      · have hr := refreshTokenOp_stuck h s hp hns
        simpa [fireRefreshTimer, ha] using hr
      · simpa [fireRefreshTimer, ha, loginStuck] using ⟨hp, hns⟩
  | fireRefreshFailure _ e =>
      refine ⟨?_, ?_⟩
      · rw [show (refreshTimerFlowFailure s e).state =
            (refreshSettle s (FlowOutcome.failure e)).state from rfl,
          (refreshSettle_fields s (FlowOutcome.failure e)).1]
        exact hp
      · rw [show (refreshTimerFlowFailure s e).state =
            (refreshSettle s (FlowOutcome.failure e)).state from rfl,
          (refreshSettle_fields s (FlowOutcome.failure e)).2]
        exact hns
  | fireExpired _ => exact ⟨hp, hns⟩

theorem reach_preserves_loginStuck {cfg : Config} {s s' : AuthState} (h : Nat)
    (hst : loginStuck h s) (hr : Relation.ReflTransGen (Step cfg) s s') :
    loginStuck h s' := by
  induction hr with
  | refl => exact hst
  | tail _ hstep ih => exact step_preserves_loginStuck h ih hstep

/-- C7: from an idle login category, `loginWithRedirect` navigates away and
stores a promise handle that no sequence of modelled controller transitions
can ever settle (its `new Promise(() => {})` resolver never escapes);
consequently the login category stays pending forever — in every reachable
state the handle is still stored — and every later login request of any flow
type returns that same never-settling handle and opens no transport (in
particular no second navigation). -/
theorem C7_redirect_promise_never_settles (cfg : Config) (s s' : AuthState)
    (hidle : s.promiseLogin = none)
    (hreach : Relation.ReflTransGen (Step cfg) (loginWithRedirect s).state s') :
    (loginWithRedirect s).ret = some s.nextHandle ∧
    (loginWithRedirect s).transports = [Transport.navigate] ∧
    loginStuck s.nextHandle s' ∧
    loginWithIframe false s' = ⟨s', some s.nextHandle, []⟩ ∧
    loginWithIframe true s' = ⟨s', some s.nextHandle, []⟩ ∧
    loginWithPopup s' = ⟨s', some s.nextHandle, []⟩ ∧
    loginWithNewTab s' = ⟨s', some s.nextHandle, []⟩ ∧
    loginWithRedirect s' = ⟨s', some s.nextHandle, []⟩ := by
  have hstart : loginStuck s.nextHandle (loginWithRedirect s).state := by
    simp [loginWithRedirect, hidle, loginStuck]
  have hstuck : loginStuck s.nextHandle s' :=
    reach_preserves_loginStuck s.nextHandle hstart hreach
  have hp' := hstuck.1
  refine ⟨by simp [loginWithRedirect, hidle], by simp [loginWithRedirect, hidle],
    hstuck, ?_, ?_, ?_, ?_, ?_⟩
  · simp [loginWithIframe, hp']
  · simp [loginWithIframe, hp']
  · simp [loginWithPopup, hp']
  · simp [loginWithNewTab, hp']
  · simp [loginWithRedirect, hp']

theorem C7_redirect_promise_never_settles_witness :
    idleState.promiseLogin = none ∧
    (loginWithRedirect idleState).ret = some idleState.nextHandle ∧
    loginStuck idleState.nextHandle (loginWithRedirect idleState).state :=
  ⟨rfl,
    (C7_redirect_promise_never_settles iframeCfg idleState
      (loginWithRedirect idleState).state rfl Relation.ReflTransGen.refl).1,
    (C7_redirect_promise_never_settles iframeCfg idleState
      (loginWithRedirect idleState).state rfl Relation.ReflTransGen.refl).2.2.1⟩

end SalteAuthModel
